import Mathlib

/-!
Shallow embedding of `pulp_python/app/viewsets.py`.

Filenames (Python `str`) are modelled as `List Char`; Python's
`str.endswith(ext)` is list-suffix.  The module-level dictionaries
`DIST_EXTENSIONS` and `DIST_TYPES` are embedded as association lists in
their source insertion order (Python dicts iterate in insertion order).
-/

namespace PulpPython

/-- Python `filename.endswith(ext)` on `List Char` filenames. -/
def endswith (s ext : List Char) : Bool := decide (ext <:+ s)

/-- The module-level `DIST_EXTENSIONS` dict of `viewsets.py`, as an
association list in the source's insertion order: extension suffix to
packagetype tag. -/
def DIST_EXTENSIONS : List (List Char × String) :=
  [ (".whl".toList, "bdist_wheel"),
    (".exe".toList, "bdist_wininst"),
    (".egg".toList, "bdist_egg"),
    (".tar.bz2".toList, "sdist"),
    (".tar.gz".toList, "sdist"),
    (".zip".toList, "sdist") ]

/-- The `for ext, packagetype in DIST_EXTENSIONS.items(): if
filename.endswith(ext): ... break / else: raise` loop of
`PythonPackageContentViewSet.create` (lines 87-103): the first table entry
whose suffix matches wins; `none` is the `for/else` fall-through that
raises the invalid-extension `ValidationError`. -/
def detect (filename : List Char) : Option (List Char × String) :=
  DIST_EXTENSIONS.find? (fun p => endswith filename p.1)

theorem endswith_eq_true (s ext : List Char) (h : ext <:+ s) :
    endswith s ext = true := decide_eq_true h

theorem endswith_eq_false (s ext : List Char) (h : ¬ ext <:+ s) :
    endswith s ext = false := decide_eq_false h

/-- If a compound suffix `c` ends the filename, a table suffix `e` that is
neither a suffix of `c` nor has `c` as a suffix cannot also end it. -/
theorem not_endswith_of_compound (f c e : List Char) (hc : c <:+ f)
    (h1 : ¬ e <:+ c) (h2 : ¬ c <:+ e) : endswith f e = false := by
  apply endswith_eq_false
  intro he
  rcases List.suffix_or_suffix_of_suffix he hc with h | h
  · exact h1 h
  · exact h2 h

/-- Opaque reference to an artifact in the blob store, the value of
`request.data` at key artifact. -/
structure ArtifactRef where
  ref : String
deriving DecidableEq

/-- The raw metadata object produced by a pkginfo reader, i.e. by
`DIST_TYPES[packagetype](temp_path)` (line 96): an untrusted field bag;
the fields used by `create` are embedded. -/
structure RawMetadata where
  name : String
  version : String
  packagetype : String
  author : String
  summary : String
  keywords : String
  classifiers : List String
deriving DecidableEq

/-- One canonical classifier record, the dict built by the comprehension
on line 106. -/
structure Classifier where
  name : String
deriving DecidableEq

/-- The canonical PythonPackageContent unit persisted by
`perform_create` from the serializer data dict (lines 105-114). -/
structure PackageContentUnit where
  name : String
  version : String
  packagetype : String
  filename : List Char
  author : String
  summary : String
  keywords : String
  classifiers : List Classifier
  artifact : ArtifactRef
deriving DecidableEq

/-- A creation request body `request.data`: each field is `none` when the
corresponding key is absent (dict access raises KeyError). -/
structure Request where
  artifact : Option ArtifactRef
  filename : Option (List Char)

/-- The errors `create` can raise (DRF ValidationError variants, and a
propagated reader exception). `invalidExtension` carries the data
formatted into the message of lines 100-103: the rejected filename and
the accepted suffix list as written in the message text. -/
inductive Err where
  | fieldRequired (field : String)
  | invalidExtension (filename : List Char) (accepted : List (List Char))
  | readerFailure (msg : String)
  | schemaInvalid
deriving DecidableEq

/-- Observable side effects of one `create` invocation, in order:
entering/leaving the `tempfile.TemporaryDirectory()` context manager
(line 93), invoking the pkginfo reader (line 96), and the database write
of `perform_create` (line 114). -/
inductive Ev where
  | tempAcquire
  | readerCall
  | tempRelease
  | persist
deriving DecidableEq

/-- The suffix list exactly as enumerated in the error message text of
lines 100-103: ".whl, .exe, .egg, .tar.gz, .tar.bz2, .zip". -/
def ACCEPTED_SUFFIXES_MESSAGE : List (List Char) :=
  [ ".whl".toList, ".exe".toList, ".egg".toList,
    ".tar.gz".toList, ".tar.bz2".toList, ".zip".toList ]

/-- The canonical fields produced by the normalizer from the raw bag. -/
structure ProjectData where
  name : String
  author : String
  summary : String
  keywords : String
deriving DecidableEq

/-- Modelled from the spec: `parse_project_metadata` lives in
`pulp_python.app.utils`, which is not under src/; per spec section 4.3 the
normalizer renames/aliases the raw reader fields into the canonical
schema, carrying the values through. -/
def parse_project_metadata (raw : RawMetadata) : ProjectData :=
  { name := raw.name, author := raw.author, summary := raw.summary,
    keywords := raw.keywords }

/-- Modelled from the spec: the schema check run by
`serializer.is_valid(raise_exception=True)` (line 113); the serializer
class is in `pulp_python.app.serializers`, not under src/. Per spec
section 3 the required canonical fields are name, version, packagetype
and filename. -/
def schemaValid (u : PackageContentUnit) : Bool :=
  decide (u.name ≠ "" ∧ u.version ≠ "" ∧ u.packagetype ≠ "" ∧
    u.filename ≠ [])

/-- A pkginfo reader environment: given the packagetype tag (selecting the
class via `DIST_TYPES[packagetype]`), the artifact whose bytes were copied
to the temp path, and the submitted filename the copy is named after, it
returns raw metadata or fails (an exception escaping line 96). -/
abbrev Reader : Type :=
  String → ArtifactRef → List Char → Except String RawMetadata

/-- What one `create` call yields: its event trace, the database after the
call (a list of persisted units), and the HTTP-level outcome. -/
structure CreateOutcome where
  trace : List Ev
  db : List PackageContentUnit
  result : Except Err PackageContentUnit

/-- `PythonPackageContentViewSet.create` (viewsets.py lines 71-117).
The whole body runs under `@transaction.atomic`, so an error path leaves
the database exactly as it was; the `with` block releases the temporary
directory on success and on an escaping reader exception alike, and
line 97 overwrites `metadata.packagetype` with the tag detected from the
filename suffix before the field is copied into the data dict. -/
def create (reader : Reader) (req : Request) (db : List PackageContentUnit) :
    CreateOutcome :=
  match req.artifact with
  | none => ⟨[], db, .error (.fieldRequired "artifact")⟩
  | some artifact =>
    match req.filename with
    | none => ⟨[], db, .error (.fieldRequired "filename")⟩
    | some filename =>
      match detect filename with
      | none =>
        ⟨[], db, .error (.invalidExtension filename ACCEPTED_SUFFIXES_MESSAGE)⟩
      | some (_ext, packagetype) =>
        match reader packagetype artifact filename with
        | .error msg =>
          ⟨[.tempAcquire, .readerCall, .tempRelease], db,
            .error (.readerFailure msg)⟩
        | .ok meta0 =>
          let metadata : RawMetadata := { meta0 with packagetype := packagetype }
          let pd := parse_project_metadata metadata
          let unit : PackageContentUnit :=
            { name := pd.name, author := pd.author, summary := pd.summary,
              keywords := pd.keywords,
              classifiers := metadata.classifiers.map (fun c => ⟨c⟩),
              packagetype := metadata.packagetype,
              version := metadata.version,
              filename := filename,
              artifact := artifact }
          if schemaValid unit then
            ⟨[.tempAcquire, .readerCall, .tempRelease, .persist],
              db ++ [unit], .ok unit⟩
          else
            ⟨[.tempAcquire, .readerCall, .tempRelease], db,
              .error .schemaInvalid⟩

theorem detect_tar_gz (f : List Char) (h : ".tar.gz".toList <:+ f) :
    detect f = some (".tar.gz".toList, "sdist") := by
  have h1 := not_endswith_of_compound f ".tar.gz".toList ".whl".toList h
    (by decide) (by decide)
  have h2 := not_endswith_of_compound f ".tar.gz".toList ".exe".toList h
    (by decide) (by decide)
  have h3 := not_endswith_of_compound f ".tar.gz".toList ".egg".toList h
    (by decide) (by decide)
  have h4 := not_endswith_of_compound f ".tar.gz".toList ".tar.bz2".toList h
    (by decide) (by decide)
  have h5 := endswith_eq_true f ".tar.gz".toList h
  simp only [detect, DIST_EXTENSIONS, List.find?, h1, h2, h3, h4, h5]

theorem detect_tar_bz2 (f : List Char) (h : ".tar.bz2".toList <:+ f) :
    detect f = some (".tar.bz2".toList, "sdist") := by
  have h1 := not_endswith_of_compound f ".tar.bz2".toList ".whl".toList h
    (by decide) (by decide)
  have h2 := not_endswith_of_compound f ".tar.bz2".toList ".exe".toList h
    (by decide) (by decide)
  have h3 := not_endswith_of_compound f ".tar.bz2".toList ".egg".toList h
    (by decide) (by decide)
  have h5 := endswith_eq_true f ".tar.bz2".toList h
  simp only [detect, DIST_EXTENSIONS, List.find?, h1, h2, h3, h5]

/-- C1: every filename ending in a recognized compound suffix (".tar.gz" or
".tar.bz2") is detected as exactly that compound table entry, with
packagetype "sdist" (the source-distribution tag); detection neither picks a
shorter entry nor falls through to the for/else unrecognized-format raise. -/
theorem C1_compound_suffix_selects_sdist (f : List Char)
    (h : ".tar.gz".toList <:+ f ∨ ".tar.bz2".toList <:+ f) :
    (".tar.gz".toList <:+ f → detect f = some (".tar.gz".toList, "sdist")) ∧
    (".tar.bz2".toList <:+ f → detect f = some (".tar.bz2".toList, "sdist")) ∧
    detect f ≠ none ∧ (∀ e t, detect f = some (e, t) → t = "sdist") := by
  refine ⟨detect_tar_gz f, detect_tar_bz2 f, ?_, ?_⟩
  · rcases h with h | h
    · rw [detect_tar_gz f h]; simp
    · rw [detect_tar_bz2 f h]; simp
  · intro e t het
    rcases h with h | h
    · rw [detect_tar_gz f h] at het
      exact (Prod.mk.injEq _ _ _ _ ▸ (Option.some.injEq _ _ ▸ het)).2.symm ▸ rfl
    · rw [detect_tar_bz2 f h] at het
      exact (Prod.mk.injEq _ _ _ _ ▸ (Option.some.injEq _ _ ▸ het)).2.symm ▸ rfl

/-- Witness for C1 at the concrete filename "foo.tar.gz". -/
theorem C1_compound_suffix_selects_sdist_witness :
    detect "foo.tar.gz".toList = some (".tar.gz".toList, "sdist") :=
  (C1_compound_suffix_selects_sdist "foo.tar.gz".toList
    (Or.inl (by decide))).1 (by decide)

theorem create_db_append (reader : Reader) (req : Request)
    (db : List PackageContentUnit) :
    (create reader req db).db =
      db ++ (match (create reader req db).result with
             | .ok u => [u]
             | .error _ => []) := by
  obtain ⟨ra, rf⟩ := req
  cases ra with
  | none => simp [create]
  | some a =>
    cases rf with
    | none => simp [create]
    | some f =>
      cases hd : detect f with
      | none => simp [create, hd]
      | some p =>
        obtain ⟨e, pt⟩ := p
        cases hr : reader pt a f with
        | error m => simp [create, hd, hr]
        | ok m0 =>
          simp only [create, hd, hr]
          split <;> simp

/-- C3: the whole create sequence is one atomic transaction: the database
after the call is the old database extended by exactly the one created
unit when the result is a success, and is completely unchanged when any
step fails. -/
theorem C3_create_atomic (reader : Reader) (req : Request)
    (db : List PackageContentUnit) :
    (create reader req db).db =
      db ++ (match (create reader req db).result with
             | .ok u => [u]
             | .error _ => []) :=
  create_db_append reader req db

/-- C4: a request with the artifact key absent fails with the
field-specific artifact error, and a request with artifact present but the
filename key absent fails with the field-specific filename error; in both
cases the event trace is empty, so no temporary directory was created and
no extraction work happened. -/
theorem C4_missing_field_fast_fail (reader : Reader) (req : Request)
    (db : List PackageContentUnit) :
    (req.artifact = none →
      (create reader req db).result = .error (.fieldRequired "artifact") ∧
      (create reader req db).trace = []) ∧
    (∀ a, req.artifact = some a → req.filename = none →
      (create reader req db).result = .error (.fieldRequired "filename") ∧
      (create reader req db).trace = []) := by
  constructor
  · intro h
    constructor <;> simp [create, h]
  · intro a ha hf
    constructor <;> simp [create, ha, hf]

/-- A reader that is never consulted successfully, for concrete witnesses. -/
def readerTrivial : Reader := fun _ _ _ => .error "boom"

/-- Witness for C4 on two concrete requests, one per missing field. -/
theorem C4_missing_field_fast_fail_witness :
    (create readerTrivial ⟨none, some "a.whl".toList⟩ []).result
        = .error (.fieldRequired "artifact") ∧
    (create readerTrivial ⟨some ⟨"art"⟩, none⟩ []).result
        = .error (.fieldRequired "filename") :=
  ⟨((C4_missing_field_fast_fail readerTrivial ⟨none, some "a.whl".toList⟩ []).1
      rfl).1,
   ((C4_missing_field_fast_fail readerTrivial ⟨some ⟨"art"⟩, none⟩ []).2
      ⟨"art"⟩ rfl rfl).1⟩

/-- C5: a filename matching no table suffix fails with the
invalid-extension error carrying that filename and the accepted-suffix
list exactly as enumerated in the message, the list is a permutation of
the extension table's keys (so it is complete), and nothing is persisted. -/
theorem C5_unsupported_extension (reader : Reader) (req : Request)
    (db : List PackageContentUnit) (a : ArtifactRef) (f : List Char)
    (ha : req.artifact = some a) (hf : req.filename = some f)
    (hd : detect f = none) :
    (create reader req db).result =
      .error (.invalidExtension f ACCEPTED_SUFFIXES_MESSAGE) ∧
    (create reader req db).db = db ∧
    (create reader req db).trace = [] ∧
    ACCEPTED_SUFFIXES_MESSAGE.Perm (DIST_EXTENSIONS.map Prod.fst) := by
  refine ⟨?_, ?_, ?_, by decide⟩ <;> simp [create, ha, hf, hd]

/-- Witness for C5 at the concrete filename "foo.txt". -/
theorem C5_unsupported_extension_witness :
    (create readerTrivial ⟨some ⟨"art"⟩, some "foo.txt".toList⟩ []).result
      = .error (.invalidExtension "foo.txt".toList ACCEPTED_SUFFIXES_MESSAGE) :=
  (C5_unsupported_extension readerTrivial ⟨some ⟨"art"⟩, some "foo.txt".toList⟩
    [] ⟨"art"⟩ "foo.txt".toList rfl rfl (by decide)).1

/-- C8: on every control path of create (missing fields, unrecognized
suffix, reader exception, schema failure, success) the temporary
directory context manager is exited as often as it is entered: the trace
counts of acquire and release events agree. -/
theorem C8_temp_workspace_released (reader : Reader) (req : Request)
    (db : List PackageContentUnit) :
    ((create reader req db).trace.count Ev.tempAcquire) =
      ((create reader req db).trace.count Ev.tempRelease) := by
  obtain ⟨ra, rf⟩ := req
  cases ra with
  | none => simp [create]
  | some a =>
    cases rf with
    | none => simp [create]
    | some f =>
      cases hd : detect f with
      | none => simp [create, hd]
      | some p =>
        obtain ⟨e, pt⟩ := p
        cases hr : reader pt a f with
        | error m => simp [create, hd, hr]
        | ok m0 =>
          simp only [create, hd, hr]
          split <;> simp

/-- A reader environment returning a fixed raw metadata bag. -/
def readerConst (m : RawMetadata) : Reader := fun _ _ _ => .ok m

/-- A raw metadata bag whose own packagetype field reads "sdist". -/
def rawWithSdistTag : RawMetadata :=
  { name := "foo", version := "1.0", packagetype := "sdist", author := "a",
    summary := "s", keywords := "k", classifiers := [] }

/-- A creation request for a wheel-suffixed filename. -/
def reqWhl : Request :=
  { artifact := some ⟨"art"⟩, filename := some "foo.whl".toList }

/-- C6 counterexample: a reader whose raw packagetype field is "sdist",
submitted under a ".whl" filename, yields a persisted record whose
packagetype is "bdist_wheel" — the value detected from the filename
suffix, not the reader's raw field — so packagetype is re-derived from
the filename rather than carried verbatim. -/
theorem C6_counterexample :
    ((create (readerConst rawWithSdistTag) reqWhl []).result.map
        (fun u => u.packagetype)) = .ok "bdist_wheel" ∧
    rawWithSdistTag.packagetype = "sdist" ∧ "bdist_wheel" ≠ "sdist" :=
  ⟨rfl, rfl, by decide⟩

/-- C6 amended: normalization carries `version` verbatim from the reader's
raw field, while `packagetype` is taken from the filename-suffix
detection — line 97 assigns the detected tag onto the metadata object,
overwriting any reader-produced value, before it is copied into the
canonical record. -/
theorem C6_version_verbatim_packagetype_detected (reader : Reader)
    (req : Request) (db : List PackageContentUnit) (a : ArtifactRef)
    (f e : List Char) (pt : String) (m : RawMetadata)
    (u : PackageContentUnit)
    (ha : req.artifact = some a) (hf : req.filename = some f)
    (hd : detect f = some (e, pt)) (hr : reader pt a f = .ok m)
    (hok : (create reader req db).result = .ok u) :
    u.version = m.version ∧ u.packagetype = pt := by
  simp only [create, ha, hf, hd, hr] at hok
  split at hok
  · cases hok
    exact ⟨rfl, rfl⟩
  · cases hok

/-- The unit created from `rawWithSdistTag` under filename "foo.whl". -/
def unitWhl : PackageContentUnit :=
  { name := "foo", version := "1.0", packagetype := "bdist_wheel",
    filename := "foo.whl".toList, author := "a", summary := "s",
    keywords := "k", classifiers := [], artifact := ⟨"art"⟩ }

/-- Witness for the amended C6 at the concrete wheel request. -/
theorem C6_version_verbatim_packagetype_detected_witness :
    unitWhl.version = rawWithSdistTag.version ∧
    unitWhl.packagetype = "bdist_wheel" :=
  C6_version_verbatim_packagetype_detected (readerConst rawWithSdistTag)
    reqWhl [] ⟨"art"⟩ "foo.whl".toList ".whl".toList "bdist_wheel"
    rawWithSdistTag unitWhl rfl rfl (by decide) rfl rfl

/-- C9: when create succeeds, reading the newly persisted unit back (the
last element of the database) returns exactly the registered unit, whose
name and version are the reader's raw fields, whose packagetype is the
detected tag, whose filename is the submitted filename, and whose
classifier sequence reproduces the reader's classifier list in order,
duplicates included. -/
theorem C9_round_trip (reader : Reader) (req : Request)
    (db : List PackageContentUnit) (a : ArtifactRef) (f e : List Char)
    (pt : String) (m : RawMetadata) (u : PackageContentUnit)
    (ha : req.artifact = some a) (hf : req.filename = some f)
    (hd : detect f = some (e, pt)) (hr : reader pt a f = .ok m)
    (hok : (create reader req db).result = .ok u) :
    (create reader req db).db.getLast? = some u ∧
    u.name = m.name ∧ u.version = m.version ∧ u.packagetype = pt ∧
    u.filename = f ∧
    u.classifiers.map Classifier.name = m.classifiers := by
  have hdb := create_db_append reader req db
  rw [hok] at hdb
  simp only [create, ha, hf, hd, hr] at hok
  split at hok
  · cases hok
    refine ⟨?_, rfl, rfl, rfl, rfl, ?_⟩
    · rw [hdb]
      simp
    · have hid : (Classifier.name ∘ fun c => ({ name := c } : Classifier)) = id := rfl
      rw [List.map_map, hid, List.map_id]
  · cases hok

/-- A raw metadata bag with a duplicated classifier, for the C9 witness. -/
def rawDup : RawMetadata :=
  { name := "bar", version := "2.0", packagetype := "raw", author := "a",
    summary := "s", keywords := "k", classifiers := ["A", "B", "A"] }

/-- A creation request for a ".tar.gz" filename. -/
def reqTarGz : Request :=
  { artifact := some ⟨"a2"⟩, filename := some "bar.tar.gz".toList }

/-- The unit created from `rawDup` under filename "bar.tar.gz". -/
def unitTarGz : PackageContentUnit :=
  { name := "bar", version := "2.0", packagetype := "sdist",
    filename := "bar.tar.gz".toList, author := "a", summary := "s",
    keywords := "k", classifiers := [⟨"A"⟩, ⟨"B"⟩, ⟨"A"⟩],
    artifact := ⟨"a2"⟩ }

/-- Witness for C9 at a concrete sdist request whose reader produces a
duplicated classifier. -/
theorem C9_round_trip_witness :
    (create (readerConst rawDup) reqTarGz []).db.getLast? = some unitTarGz ∧
    unitTarGz.classifiers.map Classifier.name = rawDup.classifiers := by
  have h := C9_round_trip (readerConst rawDup) reqTarGz [] ⟨"a2"⟩
    "bar.tar.gz".toList ".tar.gz".toList "sdist" rawDup unitTarGz
    rfl rfl (by decide) rfl rfl
  exact ⟨h.1, h.2.2.2.2.2⟩

/-- A pulpcore RepositoryVersion reference: its pk and the pk of the
repository it belongs to. -/
structure RepoVersion where
  pk : Nat
  repository : Nat
deriving DecidableEq

/-- Resource identifiers placed in the reservation list handed to
`enqueue_with_reservation`. -/
inductive Resource where
  | repo (pk : Nat)
  | remote (pk : Nat)
  | publisher (pk : Nat)
deriving DecidableEq

/-- The `enqueue_with_reservation` call made by `PythonRemoteViewSet.sync`
(lines 161-169): its reservation list and the task kwargs. -/
structure SyncDispatch where
  resources : List Resource
  remote_pk : Nat
  repository_pk : Nat
  mirror : Bool
deriving DecidableEq

/-- `PythonRemoteViewSet.sync` after serializer validation (lines
148-170): `remote` is the viewset object, `repository` and `mirror` the
validated body fields; the reservation list is `[repository, remote]`. -/
def sync (remote : Nat) (repository : Nat) (mirror : Bool) : SyncDispatch :=
  { resources := [Resource.repo repository, Resource.remote remote],
    remote_pk := remote, repository_pk := repository, mirror := mirror }

/-- A publish request body: each selector is `none` when the key is
absent. -/
structure PublishRequest where
  repository_version : Option RepoVersion
  repository : Option Nat
deriving DecidableEq

/-- The dispatcher-level synchronous rejection. -/
inductive DispatchErr where
  | invalidRequest
deriving DecidableEq

/-- Observable dispatch-time events of publish, in program order: the
`RepositoryVersion.latest` read (line 202) and the
`enqueue_with_reservation` call (lines 204-211) carrying the reservation
list and the task kwargs. The reservation for the job is requested at the
enqueue event. -/
inductive DEv where
  | readLatest (repository : Nat) (version : RepoVersion)
  | enqueue (resources : List Resource) (publisher_pk : Nat)
      (repository_version_pk : Nat)
deriving DecidableEq

/-- The repository-version ledger as visible at dispatch time (external
collaborator, spec section 6): the pk of each repository's newest
version. -/
structure VersionState where
  latestPk : Nat → Nat

/-- Modelled from the spec: pulpcore's `RepositoryVersion.latest`
(external to src/) returns the given repository's newest version in the
current ledger state. -/
def latest (st : VersionState) (repository : Nat) : RepoVersion :=
  { pk := st.latestPk repository, repository := repository }

/-- Modelled from the spec: pulpcore's RepositoryPublishURLSerializer —
relied on by the source comment "Safe because version OR repository is
enforced by serializer" (line 199) and spec section 8 — accepts exactly
one of repository_version and repository. -/
def publishRequestValid (req : PublishRequest) : Bool :=
  (req.repository_version.isSome && req.repository.isNone) ||
    (req.repository_version.isNone && req.repository.isSome)

/-- What one publish dispatch yields: its event trace and either a
rejection or an accepted job (the handle itself is opaque). -/
structure PublishOutcome where
  trace : List DEv
  result : Except DispatchErr Unit

/-- `PythonPublisherViewSet.publish` (lines 187-212): validate the body,
resolve the latest version when only a repository was supplied, then
enqueue under the reservation `[repository_version.repository,
publisher]`. -/
def publish (st : VersionState) (publisher : Nat) (req : PublishRequest) :
    PublishOutcome :=
  if publishRequestValid req then
    match req.repository_version with
    | some rv =>
      ⟨[DEv.enqueue [Resource.repo rv.repository,
          Resource.publisher publisher] publisher rv.pk], .ok ()⟩
    | none =>
      match req.repository with
      | some repository =>
        let rv := latest st repository
        ⟨[DEv.readLatest repository rv,
          DEv.enqueue [Resource.repo rv.repository,
            Resource.publisher publisher] publisher rv.pk], .ok ()⟩
      | none => ⟨[], .error DispatchErr.invalidRequest⟩
  else ⟨[], .error DispatchErr.invalidRequest⟩

def isReadLatest : DEv → Bool
  | DEv.readLatest _ _ => true
  | _ => false

def isEnqueue : DEv → Bool
  | DEv.enqueue _ _ _ => true
  | _ => false

/-- Whether a resolution read occurs strictly before the first enqueue
event, the point where the job's reservation is requested. -/
def readBeforeEnqueue (tr : List DEv) : Bool :=
  (tr.any isReadLatest) && (tr.any isEnqueue) &&
    decide (tr.findIdx isReadLatest < tr.findIdx isEnqueue)

/-- A concrete version ledger for witnesses. -/
def stAny : VersionState := { latestPk := fun r => r + 10 }

/-- C2 counterexample: dispatching publish with only a repository performs
the latest-version read strictly before the enqueue event that requests
the reservation, and fixes the dispatch-time version pk into the job
payload — refuting the claim that the resolution read is not performed
before the reservation is acquired. -/
theorem C2_counterexample :
    readBeforeEnqueue (publish stAny 7 ⟨none, some 5⟩).trace = true ∧
    (publish stAny 7 ⟨none, some 5⟩).trace =
      [DEv.readLatest 5 ⟨15, 5⟩,
       DEv.enqueue [Resource.repo 5, Resource.publisher 7] 7 15] :=
  ⟨rfl, rfl⟩

/-- C2 amended: when only a repository is supplied, the dispatcher reads
that repository's latest version synchronously at dispatch time, strictly
before the enqueue that requests the job's reservation, and the version
pk resolved from the dispatch-time ledger state is fixed into the
enqueued kwargs. -/
theorem C2_latest_resolved_before_enqueue (st : VersionState)
    (publisher repository : Nat) :
    (publish st publisher ⟨none, some repository⟩).trace =
      [DEv.readLatest repository (latest st repository),
       DEv.enqueue [Resource.repo repository, Resource.publisher publisher]
         publisher (latest st repository).pk] ∧
    readBeforeEnqueue (publish st publisher ⟨none, some repository⟩).trace
      = true :=
  ⟨rfl, rfl⟩

/-- C7: a publish request supplying both selectors, or neither, is
rejected synchronously with the invalid-request error and an empty event
trace: no resolution read, no enqueue, hence no reservation taken and no
job handle returned. -/
theorem C7_publish_both_or_neither_rejected (st : VersionState)
    (publisher : Nat) (req : PublishRequest)
    (h : (req.repository_version.isSome = true ∧
            req.repository.isSome = true) ∨
         (req.repository_version = none ∧ req.repository = none)) :
    (publish st publisher req).result = .error DispatchErr.invalidRequest ∧
    (publish st publisher req).trace = [] := by
  obtain ⟨orv, orep⟩ := req
  rcases h with ⟨h1, h2⟩ | ⟨h1, h2⟩
  · cases orv with
    | none => cases h1
    | some rv =>
      cases orep with
      | none => cases h2
      | some r => exact ⟨rfl, rfl⟩
  · cases h1
    cases h2
    exact ⟨rfl, rfl⟩

/-- Witness for C7 on two concrete requests: both selectors supplied, and
neither supplied. -/
theorem C7_publish_both_or_neither_rejected_witness :
    (publish stAny 1 ⟨some ⟨3, 2⟩, some 2⟩).result
      = .error DispatchErr.invalidRequest ∧
    (publish stAny 1 ⟨none, none⟩).trace = [] :=
  ⟨(C7_publish_both_or_neither_rejected stAny 1 ⟨some ⟨3, 2⟩, some 2⟩
      (Or.inl ⟨rfl, rfl⟩)).1,
   (C7_publish_both_or_neither_rejected stAny 1 ⟨none, none⟩
      (Or.inr ⟨rfl, rfl⟩)).2⟩

/-- The repository version a publish dispatch resolves to: the supplied
one, or the latest of the supplied repository. -/
def resolvedVersion (st : VersionState) (req : PublishRequest) :
    Option RepoVersion :=
  match req.repository_version with
  | some rv => some rv
  | none => req.repository.map (latest st)

/-- The reservation lists of the enqueue events in a dispatch trace. -/
def enqueuedReservations (tr : List DEv) : List (List Resource) :=
  tr.filterMap (fun ev => match ev with
    | DEv.enqueue rs _ _ => some rs
    | _ => none)

/-- C10: a dispatched sync reserves exactly [target repository, remote];
a dispatched publish enqueues exactly one job reserving [repository of
the resolved version, publisher]; when the two target the same
repository the two reservation lists share that repository resource, so
the runtime's overlap rule serializes them. -/
theorem C10_reservation_sets (remote repository : Nat) (mirror : Bool)
    (st : VersionState) (publisher : Nat) (req : PublishRequest)
    (rv : RepoVersion)
    (hres : resolvedVersion st req = some rv)
    (hv : publishRequestValid req = true) :
    (sync remote repository mirror).resources
      = [Resource.repo repository, Resource.remote remote] ∧
    enqueuedReservations (publish st publisher req).trace
      = [[Resource.repo rv.repository, Resource.publisher publisher]] ∧
    (rv.repository = repository →
      Resource.repo repository ∈ (sync remote repository mirror).resources ∧
      Resource.repo repository
        ∈ [Resource.repo rv.repository, Resource.publisher publisher]) := by
  refine ⟨rfl, ?_, ?_⟩
  · obtain ⟨orv, orep⟩ := req
    cases orv with
    | some rv0 =>
      simp only [resolvedVersion, Option.some.injEq] at hres
      subst hres
      simp [publish, hv, enqueuedReservations]
    | none =>
      cases orep with
      | none => simp [resolvedVersion] at hres
      | some r =>
        simp only [resolvedVersion, Option.map_some', Option.some.injEq] at hres
        subst hres
        simp [publish, hv, enqueuedReservations]
  · intro hsame
    constructor
    · simp [sync]
    · rw [hsame]
      simp

/-- Witness for C10 at a concrete sync and publish on repository 2. -/
theorem C10_reservation_sets_witness :
    (sync 1 2 true).resources = [Resource.repo 2, Resource.remote 1] ∧
    enqueuedReservations (publish stAny 3 ⟨none, some 2⟩).trace
      = [[Resource.repo 2, Resource.publisher 3]] ∧
    Resource.repo 2 ∈ (sync 1 2 true).resources := by
  have h := C10_reservation_sets 1 2 true stAny 3 ⟨none, some 2⟩ ⟨12, 2⟩
    rfl rfl
  exact ⟨h.1, h.2.1, (h.2.2 rfl).1⟩

end PulpPython
